import Mathlib

/-!
Verification of the `Train_delays_and_services` repository.

This file gives a shallow embedding of the data-collection and merge logic of
the repository (`src/modules/data_collection.py`, `src/modules/merge_data.py`,
`src/modules/data_collection_v2.py`) and proves properties of it.

Conventions of the embedding:
* network interaction is modelled by a function `responses : Nat → Resp` giving
  the outcome of the `k`-th HTTP request issued by a fetch;
* the filesystem is a partial map from paths to file contents (lists of lines);
* Python exceptions are the `PyErr` type and fallible code returns `Except`;
* machine integers do not occur (all counters are small naturals).
-/

namespace TrainData

/-! ## Python-level error model -/

/-- The Python exception kinds the embedded code can raise. -/
inductive PyErr where
  | valueError
  | typeError
  | keyError
  | indexError
deriving DecidableEq, Repr

/-! ## The download loop of `download_csv_for_date`
(`src/modules/data_collection.py`, lines 124-183).

One call issues up to `max 1 retries` requests (`while attempt < max(1, retries)`).
The outcome of the `k`-th request (0-based) is `responses k`:
* `Resp.ok body` — a 2xx response whose body is `body` (`raise_for_status` passes);
* `Resp.http s` — a response with an error status `s`, making `raise_for_status`
  raise `requests.exceptions.HTTPError`;
* `Resp.net` — a network-level failure (timeout, connection error), i.e. a
  `requests.exceptions.RequestException` that is not an `HTTPError`.
-/

/-- Outcome of one HTTP request of the fetch loop. -/
inductive Resp where
  | ok (body : List String)
  | http (status : Nat)
  | net
deriving DecidableEq, Repr

/-- Overall outcome of one call of `download_csv_for_date`:
* `success body sleeps n` — the body written to the destination file, the list of
  back-off sleep durations performed (in seconds, in order), and the total number
  `n` of requests issued;
* `notFound sleeps n` — the re-raised `HTTPError` for a 404 response;
* `exhausted msg sleeps n` — the final `RuntimeError` with message `msg`. -/
inductive DlOutcome where
  | success (body : List String) (sleeps : List Nat) (requestCount : Nat)
  | notFound (sleeps : List Nat) (requestCount : Nat)
  | exhausted (msg : String) (sleeps : List Nat) (requestCount : Nat)
deriving DecidableEq, Repr

/-- Number of HTTP requests issued during the fetch. -/
def DlOutcome.requestCount : DlOutcome → Nat
  | .success _ _ n => n
  | .notFound _ n => n
  | .exhausted _ _ n => n

/-- Sleep durations performed during the fetch, in order. -/
def DlOutcome.sleeps : DlOutcome → List Nat
  | .success _ s _ => s
  | .notFound s _ => s
  | .exhausted _ s _ => s

/-- The message of the `RuntimeError` raised on exhaustion
(line 183: `f"Failed to download {url} after {retries} attempts"`). -/
def failMsg (url : String) (retries : Nat) : String :=
  "Failed to download " ++ url ++ " after " ++ toString retries ++ " attempts"

/-- A response after which the loop performs a further attempt: any `HTTPError`
whose status is not 404 (lines 171-179) and any other `RequestException`
(lines 180-182). A success or a 404 stops the loop. -/
def retryable : Resp → Bool
  | .ok _ => false
  | .http s => !(s == 404)
  | .net => true

/-- The `while attempt < max(1, retries)` loop of `download_csv_for_date`
(lines 157-183), with `fuel = max 1 retries - attempt` as termination measure.
On the failure of attempt `k` (0-based) the code runs `attempt += 1` and then
`time.sleep(1 + attempt)`, i.e. sleeps `k + 2` seconds. -/
def downloadLoop (url : String) (retries : Nat) (responses : Nat → Resp) :
    Nat → Nat → List Nat → DlOutcome
  | 0, attempt, sleeps => .exhausted (failMsg url retries) sleeps attempt
  | fuel + 1, attempt, sleeps =>
    match responses attempt with
    | Resp.ok body => .success body sleeps (attempt + 1)
    | Resp.http s =>
      if s = 404 then .notFound sleeps (attempt + 1)
      else downloadLoop url retries responses fuel (attempt + 1) (sleeps ++ [attempt + 2])
    | Resp.net => downloadLoop url retries responses fuel (attempt + 1) (sleeps ++ [attempt + 2])

/-- `download_csv_for_date` reduced to its retry loop: the loop starts at
`attempt = 0` with no sleeps performed, and runs while `attempt < max 1 retries`. -/
def download_csv_for_date (url : String) (responses : Nat → Resp) (retries : Nat) : DlOutcome :=
  downloadLoop url retries responses (max 1 retries) 0 []

/-- A filesystem: a partial map from paths to file contents (lists of lines). -/
def FS : Type := String → Option (List String)

/-- Writing a file (`open(dest_path, "wb")` followed by `fh.write(body)`):
the previous content at `path`, if any, is replaced. -/
def fsWrite (fs : FS) (path : String) (content : List String) : FS :=
  fun p => if p = path then some content else fs p

/-- `download_csv_for_date` together with its filesystem effect: on success the
body of the final response is written to `destPath` (lines 167-170); on any
failure nothing is written. -/
def downloadAndSave (url : String) (responses : Nat → Resp) (retries : Nat)
    (destPath : String) (fs : FS) : DlOutcome × FS :=
  match download_csv_for_date url responses retries with
  | .success body sleeps n => (.success body sleeps n, fsWrite fs destPath body)
  | o => (o, fs)

/-! ### Lemmas about the retry loop -/

/-- If every response the loop can still consume is retryable, the loop exhausts
its fuel: it performs one sleep per attempt with strictly increasing durations
and ends in the `RuntimeError`. -/
theorem downloadLoop_exhausted (url : String) (retries : Nat) (responses : Nat → Resp) :
    ∀ (fuel attempt : Nat) (sleeps : List Nat),
      (∀ j, j < fuel → retryable (responses (attempt + j)) = true) →
      downloadLoop url retries responses fuel attempt sleeps =
        .exhausted (failMsg url retries)
          (sleeps ++ (List.range fuel).map (fun j => attempt + j + 2)) (attempt + fuel) := by
  intro fuel
  induction fuel with
  | zero => intro attempt sleeps _; simp [downloadLoop]
  | succ n ih =>
    intro attempt sleeps h
    have h0 : retryable (responses attempt) = true := by
      have := h 0 (Nat.succ_pos n)
      simpa using this
    have hrange : (List.range (n + 1)).map (fun j => attempt + j + 2)
        = (attempt + 2) :: (List.range n).map (fun j => attempt + 1 + j + 2) := by
      rw [List.range_succ_eq_map, List.map_cons, List.map_map]
      refine congrArg (fun l => (attempt + 0 + 2) :: l) ?_
      refine List.map_congr_left ?_
      intro a _
      simp [Function.comp]
      omega
    have hstep : ∀ j, j < n → retryable (responses (attempt + 1 + j)) = true := by
      intro j hj
      have := h (j + 1) (by omega)
      have harith : attempt + (j + 1) = attempt + 1 + j := by omega
      rwa [harith] at this
    cases hr : responses attempt with
    | ok body => rw [hr] at h0; simp [retryable] at h0
    | http s =>
      have hs : ¬ s = 404 := by
        rw [hr] at h0
        simpa [retryable] using h0
      rw [downloadLoop, hr]
      simp only [if_neg hs]
      rw [ih (attempt + 1) (sleeps ++ [attempt + 2]) hstep]
      rw [hrange]
      have : attempt + 1 + n = attempt + (n + 1) := by omega
      rw [this, List.append_assoc]
      rfl
    | net =>
      rw [downloadLoop, hr]
      rw [ih (attempt + 1) (sleeps ++ [attempt + 2]) hstep]
      rw [hrange]
      have : attempt + 1 + n = attempt + (n + 1) := by omega
      rw [this, List.append_assoc]
      rfl

/-- If the first `k` responses are retryable and the `k`-th one is not (a success
or a 404), and the loop has budget to reach it, the loop stops after exactly
`k + 1` requests. -/
theorem downloadLoop_stops (url : String) (retries : Nat) (responses : Nat → Resp) :
    ∀ (k fuel attempt : Nat) (sleeps : List Nat), k < fuel →
      (∀ j, j < k → retryable (responses (attempt + j)) = true) →
      retryable (responses (attempt + k)) = false →
      (downloadLoop url retries responses fuel attempt sleeps).requestCount = attempt + k + 1 := by
  intro k
  induction k with
  | zero =>
    intro fuel attempt sleeps hk _ hstop
    obtain ⟨f, rfl⟩ : ∃ f, fuel = f + 1 := ⟨fuel - 1, by omega⟩
    rw [Nat.add_zero] at hstop
    cases hr : responses attempt with
    | ok body => simp [downloadLoop, hr, DlOutcome.requestCount]
    | http s =>
      have : s = 404 := by
        rw [hr] at hstop
        simpa [retryable] using hstop
      simp [downloadLoop, hr, this, DlOutcome.requestCount]
    | net => rw [hr] at hstop; simp [retryable] at hstop
  | succ n ih =>
    intro fuel attempt sleeps hk hpre hstop
    obtain ⟨f, rfl⟩ : ∃ f, fuel = f + 1 := ⟨fuel - 1, by omega⟩
    have h0 : retryable (responses attempt) = true := by
      have := hpre 0 (Nat.succ_pos n)
      simpa using this
    have hpre' : ∀ j, j < n → retryable (responses (attempt + 1 + j)) = true := by
      intro j hj
      have := hpre (j + 1) (by omega)
      have harith : attempt + (j + 1) = attempt + 1 + j := by omega
      rwa [harith] at this
    have hstop' : retryable (responses (attempt + 1 + n)) = false := by
      have harith : attempt + (n + 1) = attempt + 1 + n := by omega
      rwa [harith] at hstop
    cases hr : responses attempt with
    | ok body => rw [hr] at h0; simp [retryable] at h0
    | http s =>
      have hs : ¬ s = 404 := by
        rw [hr] at h0
        simpa [retryable] using h0
      rw [downloadLoop, hr]
      simp only [if_neg hs]
      rw [ih f (attempt + 1) (sleeps ++ [attempt + 2]) (by omega) hpre' hstop']
      omega
    | net =>
      rw [downloadLoop, hr]
      rw [ih f (attempt + 1) (sleeps ++ [attempt + 2]) (by omega) hpre' hstop']
      omega

/-! ### Claims C1-C4 -/

/-- Claim C1, counterexample. The claim states that a response with an error
status outside {429, 500, 502, 503, 504} (and other than a network failure) is
never followed by a further attempt. With every response an HTTP 403 — neither
transient per the claim's list nor a 404 — and `retries = 2`, the code
nevertheless issues a second request (2 requests in total, not 1), because the
loop body retries every `HTTPError` whose status is not 404
(lines 171-179 of `data_collection.py`). -/
theorem c1_counterexample :
    (download_csv_for_date "https://example.org/d.csv" (fun _ => Resp.http 403) 2).requestCount
      = 2 ∧
    ¬ (download_csv_for_date "https://example.org/d.csv" (fun _ => Resp.http 403) 2).requestCount
      = 1 := by
  constructor
  · rfl
  · decide

/-- Claim C1, amended: a failed attempt is retried whenever the failure is an
HTTP response with any error status other than 404 or a network-level
exception; only a success or a 404 stops the attempt sequence early. Formally:
the loop issues exactly `k + 1` requests when the first non-retryable response
(a success or a 404) is the `k`-th one and the budget reaches it, and issues
the full `max 1 retries` requests when every response within budget is
retryable. -/
theorem c1_retry_condition (url : String) (responses : Nat → Resp) (retries : Nat) :
    (∀ k, k < max 1 retries →
      (∀ j, j < k → retryable (responses j) = true) →
      retryable (responses k) = false →
      (download_csv_for_date url responses retries).requestCount = k + 1) ∧
    ((∀ j, j < max 1 retries → retryable (responses j) = true) →
      (download_csv_for_date url responses retries).requestCount = max 1 retries) := by
  constructor
  · intro k hk hpre hstop
    unfold download_csv_for_date
    have := downloadLoop_stops url retries responses k (max 1 retries) 0 [] hk
      (by intro j hj; simpa using hpre j hj) (by simpa using hstop)
    simpa using this
  · intro h
    unfold download_csv_for_date
    rw [downloadLoop_exhausted url retries responses (max 1 retries) 0 []
      (by intro j hj; simpa using h j hj)]
    simp [DlOutcome.requestCount]

/-- Witness for `c1_retry_condition`: with a 403 response first and a 404
second, the loop makes exactly two requests — the 403 is followed by a further
attempt, and the 404 stops the loop. -/
theorem c1_retry_condition_witness :
    (1 < max 1 3) ∧
    (∀ j, j < 1 → retryable ((fun i => if i = 0 then Resp.http 403 else Resp.http 404) j) = true) ∧
    (retryable ((fun i => if i = 0 then Resp.http 403 else Resp.http 404) 1) = false) ∧
    (download_csv_for_date "https://example.org/d.csv"
      (fun i => if i = 0 then Resp.http 403 else Resp.http 404) 3).requestCount = 1 + 1 :=
  ⟨by decide, by decide, by decide,
    (c1_retry_condition "https://example.org/d.csv"
      (fun i => if i = 0 then Resp.http 403 else Resp.http 404) 3).1 1
      (by decide) (by decide) (by decide)⟩

/-- Claim C2: a 404 response makes the fetch fail immediately by re-raising the
`HTTPError`: exactly one request is issued (zero additional attempts) and no
backoff sleep is performed, whatever the retry budget is. -/
theorem c2_404_no_retry (url : String) (retries : Nat) :
    download_csv_for_date url (fun _ => Resp.http 404) retries = DlOutcome.notFound [] 1 := by
  unfold download_csv_for_date
  obtain ⟨m, hm⟩ : ∃ m, max 1 retries = m + 1 := ⟨max 1 retries - 1, by omega⟩
  rw [hm]
  rfl

/-- Claim C3, counterexample. The claim states the function makes exactly
`max 1 retries` attempts and fails with a message naming the URL and the
attempt count. With `retries = 0` the code makes 1 attempt but its message
reads "after 0 attempts" (line 183 interpolates the `retries` parameter, not
the number of attempts performed): the message does not name the attempt
count 1. -/
theorem c3_counterexample :
    download_csv_for_date "https://example.org/d.csv" (fun _ => Resp.http 503) 0
      = DlOutcome.exhausted (failMsg "https://example.org/d.csv" 0) [2] 1 ∧
    failMsg "https://example.org/d.csv" 0 ≠ failMsg "https://example.org/d.csv" 1 := by
  constructor
  · rfl
  · decide

/-- Claim C3, amended: when every attempt fails with a retryable error the
function makes exactly `max 1 retries` attempts (sleeping `j + 2` seconds after
the `j`-th failed attempt) and then fails with a `RuntimeError` whose message
names the URL and the `retries` parameter; the `retries` parameter equals the
number of attempts performed whenever `retries ≥ 1`, but for `retries = 0` one
attempt is made while the message says "after 0 attempts". -/
theorem c3_exhaustion (url : String) (responses : Nat → Resp) (retries : Nat)
    (h : ∀ j, j < max 1 retries → retryable (responses j) = true) :
    download_csv_for_date url responses retries =
      DlOutcome.exhausted (failMsg url retries)
        ((List.range (max 1 retries)).map (fun j => j + 2)) (max 1 retries) := by
  unfold download_csv_for_date
  rw [downloadLoop_exhausted url retries responses (max 1 retries) 0 []
    (by intro j hj; simpa using h j hj)]
  simp

/-- Witness for `c3_exhaustion`: three network failures with `retries = 3`
exhaust the budget after 3 attempts, sleeping 2, 3 and then 4 seconds. -/
theorem c3_exhaustion_witness :
    (∀ j, j < max 1 3 → retryable ((fun _ => Resp.net) j) = true) ∧
    download_csv_for_date "https://example.org/d.csv" (fun _ => Resp.net) 3 =
      DlOutcome.exhausted (failMsg "https://example.org/d.csv" 3)
        ((List.range (max 1 3)).map (fun j => j + 2)) (max 1 3) :=
  ⟨by decide,
    c3_exhaustion "https://example.org/d.csv" (fun _ => Resp.net) 3 (by decide)⟩

/-- The response schedule of claim C4: three HTTP 503 responses followed by a
200 response with body `body`. -/
def resp503ThenOk (body : List String) : Nat → Resp :=
  fun i => if i < 3 then Resp.http 503 else Resp.ok body

/-- Claim C4: with three 503 responses then a 200, and `retries ≥ 4`, the
fetch succeeds after 4 requests; the sleeps between consecutive attempts are
2, 3, 4 seconds — strictly increasing — and the destination file afterwards
contains exactly the body of the final 200 response, whatever (if anything)
the filesystem held at that path before. -/
theorem c4_transient_then_success (url destPath : String) (body : List String)
    (retries : Nat) (fs : FS) (h : 4 ≤ retries) :
    downloadAndSave url (resp503ThenOk body) retries destPath fs
      = (DlOutcome.success body [2, 3, 4] 4, fsWrite fs destPath body) ∧
    List.Chain' (· < ·) [2, 3, 4] ∧
    fsWrite fs destPath body destPath = some body := by
  obtain ⟨m, rfl⟩ : ∃ m, retries = m + 4 := ⟨retries - 4, by omega⟩
  have hmax : max 1 (m + 4) = m + 4 := by omega
  have hdl : download_csv_for_date url (resp503ThenOk body) (m + 4)
      = DlOutcome.success body [2, 3, 4] 4 := by
    unfold download_csv_for_date
    rw [hmax]
    show downloadLoop url (m + 4) (resp503ThenOk body) (m + 3 + 1) 0 [] = _
    rw [downloadLoop]
    show downloadLoop url (m + 4) (resp503ThenOk body) (m + 2 + 1) 1 [2] = _
    rw [downloadLoop]
    show downloadLoop url (m + 4) (resp503ThenOk body) (m + 1 + 1) 2 [2, 3] = _
    rw [downloadLoop]
    show downloadLoop url (m + 4) (resp503ThenOk body) (m + 0 + 1) 3 [2, 3, 4] = _
    rw [downloadLoop]
    rfl
  refine ⟨?_, by simp, by simp [fsWrite]⟩
  unfold downloadAndSave
  rw [hdl]

/-- Witness for `c4_transient_then_success` at `retries = 4` on an initially
empty filesystem. -/
theorem c4_transient_then_success_witness :
    (4 ≤ 4) ∧
    (downloadAndSave "https://example.org/d.csv" (resp503ThenOk ["header", "row1"]) 4 "data/raw/d.csv"
        (fun _ => none)
      = (DlOutcome.success ["header", "row1"] [2, 3, 4] 4,
          fsWrite (fun _ => none) "data/raw/d.csv" ["header", "row1"]) ∧
      List.Chain' (· < ·) [2, 3, 4] ∧
      fsWrite (fun _ => none) "data/raw/d.csv" ["header", "row1"] "data/raw/d.csv"
        = some ["header", "row1"]) :=
  ⟨le_refl 4,
    c4_transient_then_success "https://example.org/d.csv" "data/raw/d.csv" ["header", "row1"] 4
      (fun _ => none) (le_refl 4)⟩

/-! ## The collector driver `collect_csvs`
(`src/modules/data_collection.py`, lines 196-237).

A collection run is modelled by the list of dates of the range (each date an
abstract identifier) and a function `fetch` giving, per date, either the lines
of the file `download_csv_for_date` saved for it (`some lines`) or `none` when
the per-date fetch raised (any exception: 404, retry exhaustion, I/O error —
all are caught by lines 210-216 and turned into a "Skipping" log line). -/

/-- One console log line of the collection loop: `Downloaded {d} -> {path}`
(line 208) or `Skipping {d}: ...` (lines 214, 216). -/
inductive LogEntry where
  | downloaded (d : Nat)
  | skipped (d : Nat)
deriving DecidableEq, Repr

/-- The whole-run failure of `collect_csvs`: the `RuntimeError` of line 219
(`"No files were downloaded; cannot create merged CSV"`). -/
inductive CollectError where
  | noDataCollected
deriving DecidableEq, Repr

/-- The log line the loop prints for date `d`. -/
def logEntryFor (fetch : Nat → Option (List String)) (d : Nat) : LogEntry :=
  match fetch d with
  | some _ => LogEntry.downloaded d
  | none => LogEntry.skipped d

/-- The concatenation loop of lines 222-234: the boolean is the `first` flag.
An empty file is skipped without consuming the flag (`if not lines: continue`);
the first non-empty file is written whole; every later file is written without
its first line (`lines[1:]`). -/
def mergeFilesAux : Bool → List (List String) → List String
  | _, [] => []
  | first, f :: rest =>
    if f = [] then mergeFilesAux first rest
    else if first then f ++ mergeFilesAux false rest
    else f.tail ++ mergeFilesAux false rest

/-- `collect_csvs`: iterate the fetch over all dates collecting successes and a
log (lines 205-216), fail with the no-data `RuntimeError` when nothing was
downloaded (lines 218-219), otherwise write the concatenation to the output
path (lines 222-234) and return it. -/
def collect_csvs (dates : List Nat) (fetch : Nat → Option (List String))
    (outPath : String) (fs : FS) :
    Except CollectError (List String) × List LogEntry × FS :=
  if (dates.filterMap fetch).isEmpty then
    (Except.error CollectError.noDataCollected, dates.map (logEntryFor fetch), fs)
  else
    (Except.ok (mergeFilesAux true (dates.filterMap fetch)),
      dates.map (logEntryFor fetch),
      fsWrite fs outPath (mergeFilesAux true (dates.filterMap fetch)))

/-- With the `first` flag already consumed, the loop drops the first line of
every (non-empty) remaining file. -/
theorem mergeFilesAux_false (files : List (List String)) (h : ∀ f ∈ files, f ≠ []) :
    mergeFilesAux false files = (files.map List.tail).flatten := by
  induction files with
  | nil => simp [mergeFilesAux]
  | cons f rest ih =>
    have hf : ¬ f = [] := h f (List.mem_cons_self f rest)
    rw [mergeFilesAux]
    simp only [if_neg hf, if_neg (Bool.false_ne_true)]
    rw [ih (fun g hg => h g (List.mem_cons_of_mem f hg))]
    simp

/-- The first non-empty file is kept whole; the rest lose their first line. -/
theorem mergeFilesAux_true_cons (f0 : List String) (rest : List (List String))
    (h0 : f0 ≠ []) (hr : ∀ f ∈ rest, f ≠ []) :
    mergeFilesAux true (f0 :: rest) = f0 ++ (rest.map List.tail).flatten := by
  rw [mergeFilesAux]
  simp only [if_neg h0]
  rw [mergeFilesAux_false rest hr]
  simp

/-! ### Claims C5 and C6 -/

/-- Claim C5: in a run where at least one date fails and at least one succeeds
(and every downloaded file is a non-empty CSV), the run is not aborted: it
returns the merged output, every failing date is logged as skipped (and every
succeeding date as downloaded), and the output written to the output path is
exactly the first retained file whole followed by every subsequent file without
its first (header) line — one header line in total. -/
theorem c5_partial_failure (dates : List Nat) (fetch : Nat → Option (List String))
    (outPath : String) (fs : FS)
    (_hfail : ∃ d ∈ dates, fetch d = none)
    (hsucc : ∃ d ∈ dates, (fetch d).isSome = true)
    (hne : ∀ d ∈ dates, fetch d ≠ some []) :
    (∃ f0 rest, dates.filterMap fetch = f0 :: rest ∧
      (collect_csvs dates fetch outPath fs).1
        = Except.ok (f0 ++ (rest.map List.tail).flatten) ∧
      (collect_csvs dates fetch outPath fs).2.2
        = fsWrite fs outPath (f0 ++ (rest.map List.tail).flatten)) ∧
    (∀ d ∈ dates, fetch d = none →
      LogEntry.skipped d ∈ (collect_csvs dates fetch outPath fs).2.1) ∧
    (∀ d ∈ dates, (fetch d).isSome = true →
      LogEntry.downloaded d ∈ (collect_csvs dates fetch outPath fs).2.1) := by
  have hnonnil : dates.filterMap fetch ≠ [] := by
    obtain ⟨d, hd, hs⟩ := hsucc
    intro h0
    rw [List.filterMap_eq_nil_iff] at h0
    rw [h0 d hd] at hs
    simp at hs
  obtain ⟨f0, rest, hcons⟩ : ∃ f0 rest, dates.filterMap fetch = f0 :: rest := by
    cases hfm : dates.filterMap fetch with
    | nil => exact absurd hfm hnonnil
    | cons a l => exact ⟨a, l, rfl⟩
  have hAllNe : ∀ f ∈ dates.filterMap fetch, f ≠ [] := by
    intro f hf
    rw [List.mem_filterMap] at hf
    obtain ⟨d, hd, hfd⟩ := hf
    intro hfe
    exact hne d hd (by rw [hfd, hfe])
  have hmerge : mergeFilesAux true (dates.filterMap fetch)
      = f0 ++ (rest.map List.tail).flatten := by
    rw [hcons]
    exact mergeFilesAux_true_cons f0 rest
      (hAllNe f0 (by rw [hcons]; exact List.mem_cons_self f0 rest))
      (fun f hf => hAllNe f (by rw [hcons]; exact List.mem_cons_of_mem f0 hf))
  have hEmpty : (dates.filterMap fetch).isEmpty = false := by
    rw [hcons]
    rfl
  have h21 : (collect_csvs dates fetch outPath fs).2.1 = dates.map (logEntryFor fetch) := by
    unfold collect_csvs
    split <;> rfl
  refine ⟨⟨f0, rest, hcons, ?_, ?_⟩, ?_, ?_⟩
  · simp [collect_csvs, hEmpty, hmerge]
  · simp [collect_csvs, hEmpty, hmerge]
  · intro d hd hdn
    have hlog : logEntryFor fetch d = LogEntry.skipped d := by
      simp [logEntryFor, hdn]
    rw [h21, ← hlog]
    exact List.mem_map_of_mem (logEntryFor fetch) hd
  · intro d hd hds
    obtain ⟨f, hf⟩ := Option.isSome_iff_exists.mp hds
    have hlog : logEntryFor fetch d = LogEntry.downloaded d := by
      simp [logEntryFor, hf]
    rw [h21, ← hlog]
    exact List.mem_map_of_mem (logEntryFor fetch) hd

/-- The fetch schedule of the C5 witness: days 1 and 3 succeed with two-line
files (a header plus one data row each), day 2 fails. -/
def c5Fetch : Nat → Option (List String) :=
  fun d =>
    if d = 1 then some ["hdr", "a1"]
    else if d = 3 then some ["hdr", "c1"]
    else none

/-- Witness for `c5_partial_failure`: a 3-day range where day 2 fails and days
1 and 3 succeed. -/
theorem c5_partial_failure_witness :
    (∃ d ∈ [1, 2, 3], c5Fetch d = none) ∧
    (∃ d ∈ [1, 2, 3], (c5Fetch d).isSome = true) ∧
    (∀ d ∈ [1, 2, 3], c5Fetch d ≠ some []) ∧
    ((∃ f0 rest, List.filterMap c5Fetch [1, 2, 3] = f0 :: rest ∧
      (collect_csvs [1, 2, 3] c5Fetch "out.csv" (fun _ => none)).1
        = Except.ok (f0 ++ (rest.map List.tail).flatten) ∧
      (collect_csvs [1, 2, 3] c5Fetch "out.csv" (fun _ => none)).2.2
        = fsWrite (fun _ => none) "out.csv" (f0 ++ (rest.map List.tail).flatten)) ∧
    (∀ d ∈ [1, 2, 3], c5Fetch d = none →
      LogEntry.skipped d ∈ (collect_csvs [1, 2, 3] c5Fetch "out.csv" (fun _ => none)).2.1) ∧
    (∀ d ∈ [1, 2, 3], (c5Fetch d).isSome = true →
      LogEntry.downloaded d ∈ (collect_csvs [1, 2, 3] c5Fetch "out.csv" (fun _ => none)).2.1)) :=
  ⟨⟨2, by decide, by decide⟩, ⟨1, by decide, by decide⟩, by decide,
    c5_partial_failure [1, 2, 3] c5Fetch "out.csv" (fun _ => none)
      ⟨2, by decide, by decide⟩ ⟨1, by decide, by decide⟩ (by decide)⟩

/-- Claim C6: when zero dates succeed, `collect_csvs` fails with the
no-data-collected error and the filesystem is untouched — in particular no
output file is created. -/
theorem c6_no_data (dates : List Nat) (fetch : Nat → Option (List String))
    (outPath : String) (fs : FS) (h : ∀ d ∈ dates, fetch d = none) :
    (collect_csvs dates fetch outPath fs).1 = Except.error CollectError.noDataCollected ∧
    (collect_csvs dates fetch outPath fs).2.2 = fs := by
  have hnil : dates.filterMap fetch = [] := List.filterMap_eq_nil_iff.mpr h
  constructor <;> simp [collect_csvs, hnil]

/-- Witness for `c6_no_data`: a one-day range whose only fetch fails. -/
theorem c6_no_data_witness :
    (∀ d ∈ [7], (fun _ => (none : Option (List String))) d = none) ∧
    ((collect_csvs [7] (fun _ => none) "out.csv" (fun _ => none)).1
      = Except.error CollectError.noDataCollected ∧
    (collect_csvs [7] (fun _ => none) "out.csv" (fun _ => none)).2.2 = (fun _ => none)) :=
  ⟨by decide,
    c6_no_data [7] (fun _ => none) "out.csv" (fun _ => none) (by decide)⟩

/-! ## Date normalization: `parse_run_date`
(`src/modules/merge_data.py`, lines 21-32).

`pd.to_datetime(s, format=...)` with an explicit format string either returns a
timestamp or raises `ValueError` (pandas' out-of-bounds error is a subclass of
`ValueError`). The `%Y` directive matches exactly four digits; `%m` and `%d`
match one or two digits; the whole string must be consumed; the values must
form a real calendar date. -/

/-- A calendar date. `datetime.date` guarantees `1 ≤ year ≤ 9999`,
`1 ≤ month ≤ 12` and a day valid for the month. -/
structure Date where
  year : Nat
  month : Nat
  day : Nat
deriving DecidableEq, Repr

/-- Gregorian leap-year rule. -/
def isLeapYear (y : Nat) : Bool :=
  (y % 4 == 0 && !(y % 100 == 0)) || y % 400 == 0

/-- Number of days of month `m` of year `y`. -/
def daysInMonth (y m : Nat) : Nat :=
  if m = 2 then (if isLeapYear y then 29 else 28)
  else if m = 4 ∨ m = 6 ∨ m = 9 ∨ m = 11 then 30
  else 31

/-- The `datetime.date` invariant. -/
def Date.valid (d : Date) : Bool :=
  1 ≤ d.year && d.year ≤ 9999 && 1 ≤ d.month && d.month ≤ 12
    && 1 ≤ d.day && d.day ≤ daysInMonth d.year d.month

/-- Constructing a date validates it (`ValueError` otherwise). -/
def mkDate (y m d : Nat) : Option Date :=
  if (Date.mk y m d).valid then some ⟨y, m, d⟩ else none

/-- Natural number denoted by a digit string (most significant digit first). -/
def digitsToNat (l : List Char) : Nat :=
  l.foldl (fun acc c => acc * 10 + (c.toNat - 48)) 0

/-- Every character is an ASCII digit. -/
def allDigits (l : List Char) : Bool :=
  l.all Char.isDigit

/-- Splitting a character list at every occurrence of the separator `c`
(the behaviour of `str.split` on a single-character separator for the
non-empty-separator case). -/
def splitOnChar (c : Char) (l : List Char) : List (List Char) :=
  match l with
  | [] => [[]]
  | a :: rest =>
    let r := splitOnChar c rest
    if a = c then [] :: r
    else
      match r with
      | [] => [[a]]
      | h :: t => (a :: h) :: t

/-- Python `str.strip()`: remove leading and trailing whitespace
(line 22: `s = str(s).strip()`). -/
def pyStrip (s : String) : String :=
  ⟨((s.data.dropWhile Char.isWhitespace).reverse.dropWhile Char.isWhitespace).reverse⟩

/-- The `%Y` strptime field: exactly four digits. -/
def parseYearField (l : List Char) : Option Nat :=
  if l.length = 4 && allDigits l then some (digitsToNat l) else none

/-- The `%m` and `%d` strptime fields: one or two digits. -/
def parseTwoField (l : List Char) : Option Nat :=
  if (l.length = 1 || l.length = 2) && allDigits l then some (digitsToNat l) else none

/-- `pd.to_datetime(s, format="%Y-%m-%d")`: returns the date, or raises
`ValueError` when the string does not match the format or is not a real
calendar date. -/
def to_datetime_iso (s : String) : Except PyErr Date :=
  match splitOnChar '-' s.data with
  | [ys, ms, ds] =>
    match parseYearField ys, parseTwoField ms, parseTwoField ds with
    | some y, some m, some d =>
      match mkDate y m d with
      | some dt => Except.ok dt
      | none => Except.error PyErr.valueError
    | _, _, _ => Except.error PyErr.valueError
  | _ => Except.error PyErr.valueError

/-- `pd.to_datetime(s, format="%d/%m/%Y")`: day first, then month, then year,
separated by slashes. -/
def to_datetime_dmy (s : String) : Except PyErr Date :=
  match splitOnChar '/' s.data with
  | [ds, ms, ys] =>
    match parseYearField ys, parseTwoField ms, parseTwoField ds with
    | some y, some m, some d =>
      match mkDate y m d with
      | some dt => Except.ok dt
      | none => Except.error PyErr.valueError
    | _, _, _ => Except.error PyErr.valueError
  | _ => Except.error PyErr.valueError

/-- `parse_run_date` (lines 21-29): strip the input, try the `%Y-%m-%d` format;
on `ValueError` try `%d/%m/%Y`; on `ValueError` again return `pd.NaT`
(modelled as `none`). Exceptions other than `ValueError` would propagate —
the two outer `match` arms re-raise them. -/
def parse_run_date (s : String) : Except PyErr (Option Date) :=
  let t := pyStrip s
  match to_datetime_iso t with
  | Except.ok d => Except.ok (some d)
  | Except.error PyErr.valueError =>
    match to_datetime_dmy t with
    | Except.ok d => Except.ok (some d)
    | Except.error PyErr.valueError => Except.ok none
    | Except.error e => Except.error e
  | Except.error e => Except.error e

/-- `to_datetime_iso` only ever fails with `ValueError`. -/
theorem to_datetime_iso_err (s : String) (e : PyErr)
    (h : to_datetime_iso s = Except.error e) : e = PyErr.valueError := by
  unfold to_datetime_iso at h
  repeat split at h
  all_goals simp_all

/-- `to_datetime_dmy` only ever fails with `ValueError`. -/
theorem to_datetime_dmy_err (s : String) (e : PyErr)
    (h : to_datetime_dmy s = Except.error e) : e = PyErr.valueError := by
  unfold to_datetime_dmy at h
  repeat split at h
  all_goals simp_all

/-! ### Claim C7 -/

/-- Claim C7: `parse_run_date` never raises — for every input string it returns
a value; it first attempts the `%Y-%m-%d` format (a hit there wins), then the
`%d/%m/%Y` format, and when both formats fail it returns the null value
`pd.NaT` (so a row keeps a null date instead of being dropped by an
exception). -/
theorem c7_parse_run_date_total (s : String) :
    (∃ v, parse_run_date s = Except.ok v) ∧
    (∀ d, to_datetime_iso (pyStrip s) = Except.ok d →
      parse_run_date s = Except.ok (some d)) ∧
    (∀ d, to_datetime_iso (pyStrip s) = Except.error PyErr.valueError →
      to_datetime_dmy (pyStrip s) = Except.ok d →
      parse_run_date s = Except.ok (some d)) ∧
    (to_datetime_iso (pyStrip s) = Except.error PyErr.valueError →
      to_datetime_dmy (pyStrip s) = Except.error PyErr.valueError →
      parse_run_date s = Except.ok none) := by
  refine ⟨?_, ?_, ?_, ?_⟩
  · cases hiso : to_datetime_iso (pyStrip s) with
    | ok d => exact ⟨some d, by simp [parse_run_date, hiso]⟩
    | error e =>
      have he : e = PyErr.valueError := to_datetime_iso_err _ _ hiso
      subst he
      cases hdmy : to_datetime_dmy (pyStrip s) with
      | ok d => exact ⟨some d, by simp [parse_run_date, hiso, hdmy]⟩
      | error e' =>
        have he' : e' = PyErr.valueError := to_datetime_dmy_err _ _ hdmy
        subst he'
        exact ⟨none, by simp [parse_run_date, hiso, hdmy]⟩
  · intro d hiso
    simp [parse_run_date, hiso]
  · intro d hiso hdmy
    simp [parse_run_date, hiso, hdmy]
  · intro hiso hdmy
    simp [parse_run_date, hiso, hdmy]

/-- Witness for `c7_parse_run_date_total`: `"2024-06-01"` hits the first
format; `"01/06/2024"` misses the first and hits the second; `"junk"` misses
both and yields the null value, not an exception. -/
theorem c7_parse_run_date_total_witness :
    (to_datetime_iso (pyStrip "2024-06-01") = Except.ok ⟨2024, 6, 1⟩ ∧
      parse_run_date "2024-06-01" = Except.ok (some ⟨2024, 6, 1⟩)) ∧
    (to_datetime_iso (pyStrip "01/06/2024") = Except.error PyErr.valueError ∧
      to_datetime_dmy (pyStrip "01/06/2024") = Except.ok ⟨2024, 6, 1⟩ ∧
      parse_run_date "01/06/2024" = Except.ok (some ⟨2024, 6, 1⟩)) ∧
    (to_datetime_iso (pyStrip "junk") = Except.error PyErr.valueError ∧
      to_datetime_dmy (pyStrip "junk") = Except.error PyErr.valueError ∧
      parse_run_date "junk" = Except.ok none) :=
  ⟨⟨rfl, (c7_parse_run_date_total "2024-06-01").2.1 ⟨2024, 6, 1⟩ rfl⟩,
    ⟨rfl, rfl,
      (c7_parse_run_date_total "01/06/2024").2.2.1 ⟨2024, 6, 1⟩ rfl rfl⟩,
    ⟨rfl, rfl,
      (c7_parse_run_date_total "junk").2.2.2 rfl rfl⟩⟩

/-! ## The merge script
(`src/modules/merge_data.py`, lines 4-55).

The script globs for files matching the filename pattern (line 4), but the read
loop iterates `files[12:16]` only (line 8); each selected file is read with
`skiprows=2` (line 9); the frames are concatenated (line 18); the raw date is
backed up into `run_date_raw` and `run_date` is normalized with
`parse_run_date` (lines 31-32). The sort by `(run_date, gbtt_dep, gbtt_arr)`
(line 50) and the `to_csv` output write (line 55) are commented out and do not
run. -/

/-- A row of a source CSV file: the date column, the two scheduled-time
columns, and the remaining columns (opaque to the script). -/
structure RawRow where
  run_date : String
  gbtt_dep : String
  gbtt_arr : String
  rest : List String
deriving DecidableEq, Repr

/-- A CSV file on disk, as a list of rows. -/
structure RawFile where
  rows : List RawRow
deriving DecidableEq, Repr

/-- A row after date normalization: `run_date` is the parsed date (or null),
`run_date_raw` keeps the original string (line 31). -/
structure NRow where
  run_date : Option Date
  run_date_raw : String
  gbtt_dep : String
  gbtt_arr : String
  rest : List String
deriving DecidableEq, Repr

/-- The value `parse_run_date` computes (it never raises; see
`parse_run_date_isOk`). -/
def parse_run_date_value (s : String) : Option Date :=
  match parse_run_date s with
  | Except.ok v => v
  | Except.error _ => none

/-- `parse_run_date` always returns: its result is `Except.ok` of
`parse_run_date_value`. -/
theorem parse_run_date_isOk (s : String) :
    parse_run_date s = Except.ok (parse_run_date_value s) := by
  unfold parse_run_date_value
  cases hiso : to_datetime_iso (pyStrip s) with
  | ok d => simp [parse_run_date, hiso]
  | error e =>
    have he : e = PyErr.valueError := to_datetime_iso_err _ _ hiso
    subst he
    cases hdmy : to_datetime_dmy (pyStrip s) with
    | ok d => simp [parse_run_date, hiso, hdmy]
    | error e' =>
      have he' : e' = PyErr.valueError := to_datetime_dmy_err _ _ hdmy
      subst he'
      simp [parse_run_date, hiso, hdmy]

/-- Applying `parse_run_date` to the date cell of one row (line 32); a raised
exception would propagate out of the `apply`. -/
def normalizeRow (r : RawRow) : Except PyErr NRow := do
  let v ← parse_run_date r.run_date
  Except.ok ⟨v, r.run_date, r.gbtt_dep, r.gbtt_arr, r.rest⟩

/-- The value `normalizeRow` computes. -/
def normalizeRowSpec (r : RawRow) : NRow :=
  ⟨parse_run_date_value r.run_date, r.run_date, r.gbtt_dep, r.gbtt_arr, r.rest⟩

/-- Row-wise normalization of a whole table never raises. -/
theorem mapM_normalizeRow (l : List RawRow) :
    l.mapM normalizeRow = Except.ok (l.map normalizeRowSpec) := by
  induction l with
  | nil => rfl
  | cons a l ih =>
    have ha : normalizeRow a = Except.ok (normalizeRowSpec a) := by
      unfold normalizeRow normalizeRowSpec
      rw [parse_run_date_isOk a.run_date]
      rfl
    rw [List.mapM_cons, ha, ih]
    rfl

/-- The observable behaviour of one run of the merge script. -/
structure MergeScriptResult where
  filesRead : List RawFile
  table : Except PyErr (List NRow)
  outputWritten : Option (List NRow)

/-- The merge script (`merge_data.py`): read `files[12:16]` of the glob matches
with `skiprows=2`, concatenate, normalize the date column; nothing is sorted
and no output file is written (lines 48-55 are commented out). -/
def merge_data_script (files : List RawFile) : MergeScriptResult :=
  let used := (files.drop 12).take 4
  let df := (used.map (fun f => f.rows.drop 2)).flatten
  { filesRead := used
  , table := df.mapM normalizeRow
  , outputWritten := none }

/-! ### Claim C8 -/

/-- A concrete three-row CSV file for the C8 counterexample: two junk header
rows and one data row. -/
def c8File : RawFile :=
  ⟨[⟨"x", "x", "x", []⟩, ⟨"x", "x", "x", []⟩, ⟨"2024-06-01", "0800", "0805", []⟩]⟩

/-- Claim C8, counterexample. The claim states the merger reads every file
matching the glob pattern and writes a single output file. With exactly one
matching file, the script reads none of the matched files (it only reads
`files[12:16]`, line 8 of `merge_data.py`) and writes no output file (the
`to_csv` call, line 55, is commented out). -/
theorem c8_counterexample :
    (merge_data_script [c8File]).filesRead = [] ∧
    [c8File] ≠ ([] : List RawFile) ∧
    (merge_data_script [c8File]).outputWritten = none := by
  refine ⟨rfl, by simp, rfl⟩

/-- Claim C8, amended: the merger reads only the slice `files[12:16]` of the
files matching the glob pattern — not every matching file — skipping the first
2 rows of each, concatenates them, and normalizes the `run_date` column (never
raising, keeping the raw string in `run_date_raw`); the sort by
`(run_date, gbtt_dep, gbtt_arr)` and the writing of an output file exist only
as commented-out code and are not performed. -/
theorem c8_merge_script_behaviour (files : List RawFile) :
    (merge_data_script files).filesRead = (files.drop 12).take 4 ∧
    (merge_data_script files).table
      = Except.ok (((((files.drop 12).take 4).map (fun f => f.rows.drop 2)).flatten).map
          normalizeRowSpec) ∧
    (merge_data_script files).outputWritten = none :=
  ⟨rfl, mapM_normalizeRow _, rfl⟩

/-! ## URL templates
(`src/modules/data_collection.py`, lines 115-121 and 138-141).

A `str.format` template is a list of parts: literal segments and named
placeholders. A well-formed format string has no bare brace in a literal
segment (a literal brace must be doubled), so the substring test
`"{date}" in url_template` of line 138 is the same as the presence of a
placeholder part named `date`. Substituting a missing key raises `KeyError`. -/

/-- One part of a `str.format` template. -/
inductive TPart where
  | lit (s : String)
  | ph (n : String)
deriving DecidableEq, Repr

/-- ASCII digit character of `n % 10`. -/
def digitChar (n : Nat) : Char :=
  Char.ofNat (48 + n % 10)

/-- `strftime("%Y")` on a `datetime.date` (year between 1 and 9999):
the year zero-padded to four digits. -/
def pad4 (n : Nat) : String :=
  ⟨[digitChar (n / 1000), digitChar (n / 100), digitChar (n / 10), digitChar n]⟩

/-- `strftime("%m")` / `strftime("%d")`: the value zero-padded to two digits. -/
def pad2 (n : Nat) : String :=
  ⟨[digitChar (n / 10), digitChar n]⟩

/-- `strftime("%Y%m%d")`: the eight-digit date string. -/
def dateStr8 (d : Date) : String :=
  pad4 d.year ++ pad2 d.month ++ pad2 d.day

/-- The dict built by `_format_date_for_template` (lines 115-121), as the
lookup `str.format` performs with `**fmt`. -/
def format_date_for_template (d : Date) : String → Option String :=
  fun k =>
    if k = "date" then some (dateStr8 d)
    else if k = "yyyy" then some (pad4 d.year)
    else if k = "mm" then some (pad2 d.month)
    else if k = "dd" then some (pad2 d.day)
    else none

/-- `template.format(...)` with lookup `vals`: literal segments are copied,
placeholders are substituted, and a placeholder whose name `vals` does not
cover raises `KeyError`. -/
def resolveParts (vals : String → Option String) : List TPart → Except PyErr String
  | [] => Except.ok ""
  | TPart.lit s :: rest => do
    let r ← resolveParts vals rest
    Except.ok (s ++ r)
  | TPart.ph n :: rest =>
    match vals n with
    | some v => do
      let r ← resolveParts vals rest
      Except.ok (v ++ r)
    | none => Except.error PyErr.keyError

/-- The test `"{date}" in url_template` of line 138. -/
def hasDatePh (tpl : List TPart) : Bool :=
  decide (TPart.ph "date" ∈ tpl)

/-- Lines 138-141 of `download_csv_for_date`: when the template contains
`{date}` it is formatted with the single key `date`
(`url_template.format(date=fmt["date"])`), otherwise with the full dict
(`url_template.format(**fmt)`). -/
def resolve_url (tpl : List TPart) (d : Date) : Except PyErr String :=
  if hasDatePh tpl then
    resolveParts (fun k => if k = "date" then some (dateStr8 d) else none) tpl
  else
    resolveParts (format_date_for_template d) tpl

/-- No brace character occurs in the string: the string holds no placeholder
token. -/
def braceFree (s : String) : Bool :=
  s.data.all fun c => !(c == '{') && !(c == '}')

/-- Every literal segment of the template is brace-free (well-formedness of a
`str.format` string). -/
def litsBraceFree (tpl : List TPart) : Bool :=
  tpl.all fun p =>
    match p with
    | TPart.lit s => braceFree s
    | TPart.ph _ => true

/-- Every placeholder name of the template is from `allowed`. -/
def phOnly (allowed : List String) (tpl : List TPart) : Bool :=
  tpl.all fun p =>
    match p with
    | TPart.ph n => decide (n ∈ allowed)
    | TPart.lit _ => true

/-- The text contributed by one template part under lookup `vals`. -/
def partValue (vals : String → Option String) : TPart → String
  | TPart.lit s => s
  | TPart.ph n => (vals n).getD ""

/-- The string a fully-covered template resolves to. -/
def resolveTotal (vals : String → Option String) (tpl : List TPart) : String :=
  (tpl.map (partValue vals)).foldr (fun a b => a ++ b) ""

/-- When the lookup covers every placeholder of the template, resolution
succeeds and produces the concatenation of the parts' texts. -/
theorem resolveParts_eq_total (vals : String → Option String) (tpl : List TPart)
    (h : ∀ n, TPart.ph n ∈ tpl → (vals n).isSome = true) :
    resolveParts vals tpl = Except.ok (resolveTotal vals tpl) := by
  induction tpl with
  | nil => rfl
  | cons p rest ih =>
    have hrest : ∀ n, TPart.ph n ∈ rest → (vals n).isSome = true :=
      fun n hn => h n (List.mem_cons_of_mem p hn)
    cases p with
    | lit s =>
      rw [resolveParts, ih hrest]
      rfl
    | ph n =>
      have hs : (vals n).isSome = true := h n (List.mem_cons_self _ _)
      obtain ⟨v, hv⟩ := Option.isSome_iff_exists.mp hs
      rw [resolveParts, hv, ih hrest]
      show Except.ok (v ++ resolveTotal vals rest) = _
      have : resolveTotal vals (TPart.ph n :: rest)
          = (vals n).getD "" ++ resolveTotal vals rest := rfl
      rw [this, hv]
      rfl

/-- The substituted value of any placeholder occurring in the template is an
infix of the resolved string. -/
theorem infix_resolveTotal (vals : String → Option String) (tpl : List TPart)
    (n : String) (v : String) (hmem : TPart.ph n ∈ tpl) (hv : vals n = some v) :
    v.data <:+: (resolveTotal vals tpl).data := by
  induction tpl with
  | nil => cases hmem
  | cons p rest ih =>
    have hsplit : resolveTotal vals (p :: rest)
        = partValue vals p ++ resolveTotal vals rest := rfl
    rcases List.mem_cons.mp hmem with hhead | htail
    · subst hhead
      rw [hsplit]
      refine ⟨[], (resolveTotal vals rest).data, ?_⟩
      simp [String.data_append, partValue, hv]
    · obtain ⟨s, t, hst⟩ := ih htail
      refine ⟨(partValue vals p).data ++ s, t, ?_⟩
      rw [hsplit, String.data_append, ← hst]
      simp

/-- Concatenation preserves brace-freedom. -/
theorem braceFree_append (a b : String) :
    braceFree (a ++ b) = (braceFree a && braceFree b) := by
  simp [braceFree, String.data_append, List.all_append]

/-- A resolution whose literal segments and substituted values are brace-free
is brace-free: no placeholder token remains. -/
theorem braceFree_resolveTotal (vals : String → Option String) (tpl : List TPart)
    (hlit : ∀ s, TPart.lit s ∈ tpl → braceFree s = true)
    (hph : ∀ n v, TPart.ph n ∈ tpl → vals n = some v → braceFree v = true) :
    braceFree (resolveTotal vals tpl) = true := by
  induction tpl with
  | nil => rfl
  | cons p rest ih =>
    have hsplit : resolveTotal vals (p :: rest)
        = partValue vals p ++ resolveTotal vals rest := rfl
    rw [hsplit, braceFree_append, Bool.and_eq_true]
    refine ⟨?_, ih (fun s hs => hlit s (List.mem_cons_of_mem p hs))
      (fun n v hn hv => hph n v (List.mem_cons_of_mem p hn) hv)⟩
    cases p with
    | lit s => exact hlit s (List.mem_cons_self _ _)
    | ph n =>
      cases hv : vals n with
      | none => simp [partValue, hv, braceFree]
      | some v =>
        have := hph n v (List.mem_cons_self _ _) hv
        simpa [partValue, hv] using this

/-- `digitChar` always produces an ASCII digit. -/
theorem digitChar_isDigit (n : Nat) : (digitChar n).isDigit = true := by
  unfold digitChar
  have h : n % 10 < 10 := Nat.mod_lt n (by norm_num)
  revert h
  generalize n % 10 = k
  intro h
  interval_cases k <;> decide

/-- An ASCII digit is not a brace. -/
theorem braceFree_of_allDigits (s : String) (h : s.data.all Char.isDigit = true) :
    braceFree s = true := by
  unfold braceFree
  rw [List.all_eq_true] at h ⊢
  intro c hc
  have hd := h c hc
  simp only [Bool.and_eq_true, Bool.not_eq_true', beq_eq_false_iff_ne]
  constructor
  · rintro rfl
    exact absurd hd (by decide)
  · rintro rfl
    exact absurd hd (by decide)

/-- The eight-digit date string really consists of digits. -/
theorem dateStr8_digits (d : Date) : (dateStr8 d).data.all Char.isDigit = true := by
  simp [dateStr8, pad4, pad2, String.data_append, digitChar_isDigit]

/-- `%Y` output consists of digits. -/
theorem pad4_digits (n : Nat) : (pad4 n).data.all Char.isDigit = true := by
  simp [pad4, digitChar_isDigit]

/-- `%m` / `%d` output consists of digits. -/
theorem pad2_digits (n : Nat) : (pad2 n).data.all Char.isDigit = true := by
  simp [pad2, digitChar_isDigit]

/-! ### Claim C9 -/

/-- Claim C9: for every date, resolving a well-formed template containing the
combined `{date}` placeholder yields a URL in which the date appears as eight
digits (`YYYYMMDD`) and no placeholder token remains; resolving a well-formed
template containing the three separate `{yyyy}`, `{mm}`, `{dd}` placeholders
yields a URL with the year, month and day embedded, zero-padded to 4, 2 and 2
digits respectively. -/
theorem c9_template_resolution (tpl : List TPart) (d : Date)
    (_hvalid : d.valid = true) (hlit : litsBraceFree tpl = true) :
    (hasDatePh tpl = true → phOnly ["date"] tpl = true →
      ∃ url, resolve_url tpl d = Except.ok url ∧
        (dateStr8 d).data <:+: url.data ∧
        (dateStr8 d).data.length = 8 ∧
        (dateStr8 d).data.all Char.isDigit = true ∧
        braceFree url = true) ∧
    (hasDatePh tpl = false → phOnly ["yyyy", "mm", "dd"] tpl = true →
      TPart.ph "yyyy" ∈ tpl → TPart.ph "mm" ∈ tpl → TPart.ph "dd" ∈ tpl →
      ∃ url, resolve_url tpl d = Except.ok url ∧
        (pad4 d.year).data <:+: url.data ∧ (pad4 d.year).data.length = 4 ∧
        (pad2 d.month).data <:+: url.data ∧ (pad2 d.month).data.length = 2 ∧
        (pad2 d.day).data <:+: url.data ∧ (pad2 d.day).data.length = 2 ∧
        braceFree url = true) := by
  have hlit' : ∀ s, TPart.lit s ∈ tpl → braceFree s = true := by
    intro s hs
    have := List.all_eq_true.mp hlit (TPart.lit s) hs
    simpa using this
  constructor
  · intro hdate hph
    have hmem : TPart.ph "date" ∈ tpl := by simpa [hasDatePh] using hdate
    have honly : ∀ n, TPart.ph n ∈ tpl → n = "date" := by
      intro n hn
      have h1 := List.all_eq_true.mp hph (TPart.ph n) hn
      simpa using h1
    have hall : ∀ n, TPart.ph n ∈ tpl →
        ((fun k => if k = "date" then some (dateStr8 d) else none) n).isSome = true := by
      intro n hn
      simp [honly n hn]
    refine ⟨resolveTotal (fun k => if k = "date" then some (dateStr8 d) else none) tpl,
      ?_, ?_, ?_, ?_, ?_⟩
    · have hres := resolveParts_eq_total
        (fun k => if k = "date" then some (dateStr8 d) else none) tpl hall
      simpa [resolve_url, hdate] using hres
    · exact infix_resolveTotal _ tpl "date" (dateStr8 d) hmem (by simp)
    · simp [dateStr8, pad4, pad2, String.data_append]
    · exact dateStr8_digits d
    · refine braceFree_resolveTotal _ tpl hlit' ?_
      intro n v hn hv
      rw [honly n hn] at hv
      simp only [if_pos rfl, if_true, Option.some.injEq] at hv
      rw [← hv]
      exact braceFree_of_allDigits _ (dateStr8_digits d)
  · intro hnodate hph hy hm hd2
    have honly : ∀ n, TPart.ph n ∈ tpl → n = "yyyy" ∨ n = "mm" ∨ n = "dd" := by
      intro n hn
      have h1 := List.all_eq_true.mp hph (TPart.ph n) hn
      simpa using h1
    have hall : ∀ n, TPart.ph n ∈ tpl → (format_date_for_template d n).isSome = true := by
      intro n hn
      rcases honly n hn with h | h | h <;> subst h <;> simp [format_date_for_template]
    refine ⟨resolveTotal (format_date_for_template d) tpl, ?_, ?_, ?_, ?_, ?_, ?_, ?_, ?_⟩
    · have hres := resolveParts_eq_total (format_date_for_template d) tpl hall
      simpa [resolve_url, hnodate] using hres
    · exact infix_resolveTotal _ tpl "yyyy" (pad4 d.year) hy
        (by simp [format_date_for_template])
    · simp [pad4]
    · exact infix_resolveTotal _ tpl "mm" (pad2 d.month) hm
        (by simp [format_date_for_template])
    · simp [pad2]
    · exact infix_resolveTotal _ tpl "dd" (pad2 d.day) hd2
        (by simp [format_date_for_template])
    · simp [pad2]
    · refine braceFree_resolveTotal _ tpl hlit' ?_
      intro n v hn hv
      rcases honly n hn with h | h | h
      · subst h
        simp only [format_date_for_template, if_neg (by decide : ¬ ("yyyy" = "date")),
          if_pos rfl, if_true, Option.some.injEq] at hv
        rw [← hv]
        exact braceFree_of_allDigits _ (pad4_digits d.year)
      · subst h
        simp only [format_date_for_template, if_neg (by decide : ¬ ("mm" = "date")),
          if_neg (by decide : ¬ ("mm" = "yyyy")), if_pos rfl, if_true,
          Option.some.injEq] at hv
        rw [← hv]
        exact braceFree_of_allDigits _ (pad2_digits d.month)
      · subst h
        simp only [format_date_for_template, if_neg (by decide : ¬ ("dd" = "date")),
          if_neg (by decide : ¬ ("dd" = "yyyy")), if_neg (by decide : ¬ ("dd" = "mm")),
          if_pos rfl, if_true, Option.some.injEq] at hv
        rw [← hv]
        exact braceFree_of_allDigits _ (pad2_digits d.day)

/-- A concrete template with the combined placeholder. -/
def c9TplDate : List TPart :=
  [TPart.lit "https://example.org/data_", TPart.ph "date", TPart.lit ".csv"]

/-- A concrete template with the three separate placeholders. -/
def c9TplYmd : List TPart :=
  [TPart.lit "https://example.org/", TPart.ph "yyyy", TPart.lit "/", TPart.ph "mm",
    TPart.lit "/", TPart.ph "dd", TPart.lit "/data.csv"]

/-- The date of the C9 witness: 2024-08-07. -/
def c9Date : Date := ⟨2024, 8, 7⟩

/-- Witness for `c9_template_resolution`, at the date 2024-08-07 for both a
`{date}` template and a `{yyyy}/{mm}/{dd}` template. -/
theorem c9_template_resolution_witness :
    (c9Date.valid = true) ∧ (litsBraceFree c9TplDate = true) ∧
    (hasDatePh c9TplDate = true) ∧ (phOnly ["date"] c9TplDate = true) ∧
    (∃ url, resolve_url c9TplDate c9Date = Except.ok url ∧
      (dateStr8 c9Date).data <:+: url.data ∧
      (dateStr8 c9Date).data.length = 8 ∧
      (dateStr8 c9Date).data.all Char.isDigit = true ∧
      braceFree url = true) ∧
    (litsBraceFree c9TplYmd = true) ∧ (hasDatePh c9TplYmd = false) ∧
    (phOnly ["yyyy", "mm", "dd"] c9TplYmd = true) ∧
    (∃ url, resolve_url c9TplYmd c9Date = Except.ok url ∧
      (pad4 c9Date.year).data <:+: url.data ∧ (pad4 c9Date.year).data.length = 4 ∧
      (pad2 c9Date.month).data <:+: url.data ∧ (pad2 c9Date.month).data.length = 2 ∧
      (pad2 c9Date.day).data <:+: url.data ∧ (pad2 c9Date.day).data.length = 2 ∧
      braceFree url = true) :=
  ⟨by decide, by decide, by decide, by decide,
    (c9_template_resolution c9TplDate c9Date (by decide) (by decide)).1
      (by decide) (by decide),
    by decide, by decide, by decide,
    (c9_template_resolution c9TplYmd c9Date (by decide) (by decide)).2
      (by decide) (by decide) (by decide) (by decide) (by decide)⟩

/-! ## Row extraction `extract_csv_row`
(`src/modules/data_collection_v2.py`, lines 40-91).

A service object from the JSON feed is a dictionary; `.get(k)` yields `None`
for a missing key (`Option`), while `[k]` raises `KeyError` and indexing an
empty list raises `IndexError`. Time-of-day values are `"HHMM"` strings. -/

/-- A Python dict with string values, read with `.get` / `[...]`. -/
def PyDict : Type := String → Option String

/-- `d[k]` on an optional value: raises `KeyError` when missing. -/
def getItem {α : Type} (o : Option α) : Except PyErr α :=
  match o with
  | some x => Except.ok x
  | none => Except.error PyErr.keyError

/-- `l[0]`: raises `IndexError` on an empty list. -/
def listHead {α : Type} (l : List α) : Except PyErr α :=
  match l with
  | x :: _ => Except.ok x
  | [] => Except.error PyErr.indexError

/-- `l[-1]`: raises `IndexError` on an empty list. -/
def listLast {α : Type} (l : List α) : Except PyErr α :=
  match l.getLast? with
  | some x => Except.ok x
  | none => Except.error PyErr.indexError

/-- Python `int(s)` restricted to the digit strings occurring in time fields:
raises `ValueError` on a non-digit or empty string. -/
def pyInt (s : String) : Except PyErr Int :=
  if s.data ≠ [] && allDigits s.data then Except.ok (digitsToNat s.data : Nat)
  else Except.error PyErr.valueError

/-- Python falsiness of an optional string (`not t`): `None` and `""`. -/
def pyFalsy : Option String → Bool
  | none => true
  | some s => s.data.isEmpty

/-- `mins(t)` (lines 40-43): `None` on a falsy input, else
`int(t[:2]) * 60 + int(t[2:])`. -/
def mins (t : Option String) : Except PyErr (Option Int) :=
  if pyFalsy t then Except.ok none
  else
    match t with
    | none => Except.ok none
    | some s => do
      let a ← pyInt ⟨s.data.take 2⟩
      let b ← pyInt ⟨s.data.drop 2⟩
      Except.ok (some (a * 60 + b))

/-- `delay(actual, planned)` (lines 46-49): `None` when either side is falsy,
else the difference of the two minute values (subtracting a `None` minute
value would raise `TypeError`). -/
def delay (actual planned : Option String) : Except PyErr (Option Int) :=
  if pyFalsy actual || pyFalsy planned then Except.ok none
  else do
    let x ← mins actual
    let y ← mins planned
    match x, y with
    | some a, some b => Except.ok (some (a - b))
    | _, _ => Except.error PyErr.typeError

/-- The module constant `CRS = "RDG"` (line 36). -/
def CRS : String := "RDG"

/-- `date.isoformat()`: `YYYY-MM-DD`. -/
def isoformat (d : Date) : String :=
  pad4 d.year ++ "-" ++ pad2 d.month ++ "-" ++ pad2 d.day

/-- A service object of the feed, with the fields `extract_csv_row` touches. -/
structure Svc where
  stpIndicator : Option String
  uid : Option String
  trainIdentity : Option String
  leadClass : Option String
  vehicleCount : Option String
  locationDetail : Option PyDict
  origin : Option (List PyDict)
  destination : Option (List PyDict)

/-- The record `extract_csv_row` returns (lines 55-91). -/
structure CsvRow where
  stp_indicator : Option String
  transport_type : String
  schedule_uid : Option String
  run_date : String
  train_identity : Option String
  this_tiploc : Option String
  this_crs : String
  origin_tiploc : String
  origin_description : String
  destination_tiploc : String
  destination_description : String
  gbtt_arr : Option String
  gbtt_dep : Option String
  wtt_arr : Option String
  wtt_dep : Option String
  wtt_pass : Option String
  actual_arr : Option String
  actual_arr_delay_mins : Option Int
  actual_dep : Option String
  actual_dep_delay_mins : Option Int
  actual_pass : Option String
  actual_pass_delay_mins : Option Int
  platform : Option String
  platform_actual : Option String
  lead_class : Option String
  num_vehicles : Option String

/-- `extract_csv_row(svc, run_date)` (lines 52-91): `ld` is
`svc.get("locationDetail", {})`; the origin/destination fields use raising
subscripts (`svc["origin"][0]["tiploc"]` etc.); both `platform` and
`platform_actual` are read from `ld.get("platform")` (lines 87-88). -/
def extract_csv_row (svc : Svc) (run_date : Date) : Except PyErr CsvRow := do
  let ld : PyDict := svc.locationDetail.getD (fun _ => none)
  let originList ← getItem svc.origin
  let o0 ← listHead originList
  let o_tiploc ← getItem (o0 "tiploc")
  let o_desc ← getItem (o0 "description")
  let destList ← getItem svc.destination
  let dLast ← listLast destList
  let d_tiploc ← getItem (dLast "tiploc")
  let d_desc ← getItem (dLast "description")
  let arr_delay ← delay (ld "realtimeArrival") (ld "gbttBookedArrival")
  let dep_delay ← delay (ld "realtimeDeparture") (ld "gbttBookedDeparture")
  let pass_delay ← delay (ld "realtimePass") (ld "publicPass")
  Except.ok
    { stp_indicator := svc.stpIndicator
      transport_type := "T"
      schedule_uid := svc.uid
      run_date := isoformat run_date
      train_identity := svc.trainIdentity
      this_tiploc := ld "tiploc"
      this_crs := CRS
      origin_tiploc := o_tiploc
      origin_description := o_desc
      destination_tiploc := d_tiploc
      destination_description := d_desc
      gbtt_arr := ld "gbttBookedArrival"
      gbtt_dep := ld "gbttBookedDeparture"
      wtt_arr := ld "publicArrival"
      wtt_dep := ld "publicDeparture"
      wtt_pass := ld "publicPass"
      actual_arr := ld "realtimeArrival"
      actual_arr_delay_mins := arr_delay
      actual_dep := ld "realtimeDeparture"
      actual_dep_delay_mins := dep_delay
      actual_pass := ld "realtimePass"
      actual_pass_delay_mins := pass_delay
      platform := ld "platform"
      platform_actual := ld "platform"
      lead_class := svc.leadClass
      num_vehicles := svc.vehicleCount }

/-- Inversion of one Python statement: a successful bind comes from a
successful first step. -/
theorem exceptBind_ok {α β : Type} {x : Except PyErr α} {f : α → Except PyErr β} {b : β}
    (h : (x >>= f) = Except.ok b) : ∃ a, x = Except.ok a ∧ f a = Except.ok b := by
  cases x with
  | ok a => exact ⟨a, rfl, h⟩
  | error e => simp [Bind.bind, Except.bind] at h

/-! ### Claim C10 -/

/-- Claim C10: whenever `extract_csv_row` produces a record, its
`platform_actual` field equals its `platform` field — both are read from the
same source field `ld.get("platform")` (lines 87-88 of
`data_collection_v2.py`), so the scheduled-platform and actual-platform
columns are always identical. -/
theorem c10_platform_fields (svc : Svc) (rd : Date) (row : CsvRow)
    (h : extract_csv_row svc rd = Except.ok row) :
    row.platform_actual = row.platform := by
  unfold extract_csv_row at h
  obtain ⟨originList, _, h⟩ := exceptBind_ok h
  obtain ⟨o0, _, h⟩ := exceptBind_ok h
  obtain ⟨o_tiploc, _, h⟩ := exceptBind_ok h
  obtain ⟨o_desc, _, h⟩ := exceptBind_ok h
  obtain ⟨destList, _, h⟩ := exceptBind_ok h
  obtain ⟨dLast, _, h⟩ := exceptBind_ok h
  obtain ⟨d_tiploc, _, h⟩ := exceptBind_ok h
  obtain ⟨d_desc, _, h⟩ := exceptBind_ok h
  obtain ⟨arr_delay, _, h⟩ := exceptBind_ok h
  obtain ⟨dep_delay, _, h⟩ := exceptBind_ok h
  obtain ⟨pass_delay, _, h⟩ := exceptBind_ok h
  simp only [Except.ok.injEq] at h
  subst h
  rfl

/-- A concrete location dictionary for the C10 witness. -/
def c10Dict : PyDict := fun k =>
  if k = "tiploc" then some "RDNGSTN"
  else if k = "description" then some "Reading" else none

/-- A concrete service object for the C10 witness. -/
def c10Svc : Svc :=
  { stpIndicator := some "P"
    uid := some "C12345"
    trainIdentity := some "1A23"
    leadClass := none
    vehicleCount := none
    locationDetail := none
    origin := some [c10Dict]
    destination := some [c10Dict] }

/-- The record `extract_csv_row` produces for `c10Svc` on 2024-08-07. -/
def c10Row : CsvRow :=
  { stp_indicator := some "P"
    transport_type := "T"
    schedule_uid := some "C12345"
    run_date := isoformat ⟨2024, 8, 7⟩
    train_identity := some "1A23"
    this_tiploc := none
    this_crs := CRS
    origin_tiploc := "RDNGSTN"
    origin_description := "Reading"
    destination_tiploc := "RDNGSTN"
    destination_description := "Reading"
    gbtt_arr := none
    gbtt_dep := none
    wtt_arr := none
    wtt_dep := none
    wtt_pass := none
    actual_arr := none
    actual_arr_delay_mins := none
    actual_dep := none
    actual_dep_delay_mins := none
    actual_pass := none
    actual_pass_delay_mins := none
    platform := none
    platform_actual := none
    lead_class := none
    num_vehicles := none }

/-- Witness for `c10_platform_fields` on a concrete service object. -/
theorem c10_platform_fields_witness :
    extract_csv_row c10Svc ⟨2024, 8, 7⟩ = Except.ok c10Row ∧
    c10Row.platform_actual = c10Row.platform :=
  ⟨rfl, c10_platform_fields c10Svc ⟨2024, 8, 7⟩ c10Row rfl⟩

end TrainData
